import Mathlib

/-!
Verification of `gmsad/salt.py` (Kerberos AS-REQ salt retrieval).

The Python module builds an AS-REQ, sends it over TCP or UDP, and extracts
the principal's salt from the KDC's reply (a KRB-ERROR on the
pre-authentication-required path, or an AS-REP when pre-authentication is
disabled), with an offline heuristic fallback.

The ASN.1 layer (asn1crypto) is external to the repository; replies are
therefore embedded at the level of their observable decode behaviour:
a reply is its outer tag number together with the outcome of attempting a
full decode as `KRB_ERROR` and as `KRB_AS_REP`; the opaque byte fields that
the code re-decodes (`e-data` as a sequence of `PA_DATA`, `padata-value` as
an `ETYPE_INFO2` list) are embedded as either the decoded value or a
`malformed` marker standing for the decode exception.

asn1crypto behaviour that the code relies on, reflected in the model:
accessing an absent OPTIONAL field of a decoded `Sequence` yields the
`VOID` sentinel, whose `.native` is Python `None` (so `str(x.native)` is
the text `"None"`), and whose `str()` is its repr text (modelled by the
constant `noValueStr`); `load(None)` and iteration over `None` raise.
-/

/-! ## Protocol constants (from `salt.py`) -/

def APPLICATION_TAG : Nat := 1
def AS_REQ_TAG_NUMBER : Nat := 10
def AS_REP_TAG_NUMBER : Nat := 11
def KRB_ERROR_TAG_NUMBER : Nat := 30

def AS_MSG_TYPE : Int := 10

def NT_PRINCIPAL : Int := 1
def NT_SRV_INST : Int := 2

def KDC_ERR_PREAUTH_REQUIRED : Int := 25

def PA_ETYPE_INFO2 : Int := 19

def AES128_CTS_HMAC_SHA1_96_ENC_TYPE : Int := 17
def AES256_CTS_HMAC_SHA1h96_ENC_TYPE : Int := 18

/-- Zero of time_t as a KerberosTime (GeneralizedTime) text, i.e. the epoch
sentinel 1970-01-01T00:00:00Z. -/
def TIME_T_ZERO : String := "19700101000000Z"

def INT32_MAX_VAL : Nat := 0x7FFFFFFF

def KERBEROS_PORT : Nat := 88

/-! ## Data model of the decoded structures consumed by the code -/

/-- One `ETYPE_INFO2_ENTRY`: etype is required, salt and s2kparams OPTIONAL. -/
structure ETYPE_INFO2_ENTRY where
  etype : Int
  salt : Option String
  s2kparams : Option (List Nat)
deriving DecidableEq, Repr

/-- The opaque `padata-value` bytes as the code observes them: they either
decode as an `ETYPE_INFO2` list (`ETYPE_INFO2.load` succeeds) or the load
raises (`malformed`). The code only ever decodes them when
`padata-type = PA_ETYPE_INFO2`. -/
inductive PaValue where
  | einfo2 (entries : List ETYPE_INFO2_ENTRY)
  | malformed
deriving DecidableEq, Repr

/-- One `PA_DATA`: a type tag and opaque value bytes. -/
structure PA_DATA where
  padataType : Int
  padataValue : PaValue
deriving DecidableEq, Repr

/-- The opaque `e-data` bytes of a KRB-ERROR as the code observes them:
either they decode as a `PA_DATA_SEQUENCE_OF` or the load raises. -/
inductive EData where
  | paSeq (padatas : List PA_DATA)
  | malformed
deriving DecidableEq, Repr

/-- The two fields of a decoded `KRB_ERROR` that the code consumes.
`edata = none` embeds an absent OPTIONAL `e-data` field (whose `.native`
is Python `None`, so `PA_DATA_SEQUENCE_OF.load` raises on it). -/
structure KRB_ERROR where
  errorCode : Int
  edata : Option EData
deriving DecidableEq, Repr

/-- The one field of a decoded `KRB_AS_REP` that the code consumes.
`padata = none` embeds an absent OPTIONAL `padata` field (iterating its
`None` native raises). -/
structure KRB_AS_REP where
  padata : Option (List PA_DATA)
deriving DecidableEq, Repr

/-- A KDC reply after the outer header parse `Any.load(kdc_rep)`:
its outer tag number, and the outcome of a full decode as each of the two
structures the code may attempt (`some` = load succeeds with that value,
`none` = load raises). -/
structure Reply where
  tag : Nat
  asError : Option KRB_ERROR
  asRep : Option KRB_AS_REP
deriving DecidableEq, Repr

/-- Failure outcomes of `get_salt_from_rep`: an exception propagating from
the asn1crypto layer (load failure, or `None` handed to `load`/iteration),
or the terminal `raise Exception("Could not retrieve salt from AS_REP
(tag number %d)" % tag)` carrying the observed outer tag. -/
inductive SaltError where
  | decodeError
  | couldNotRetrieve (tag : Nat)
deriving DecidableEq, Repr

/-- Python `str(x)` where `x` is the `.native` of the OPTIONAL `salt` field
(the KRB-ERROR path, line 284): the text itself when present, and the text
`"None"` when the field is absent, since `VOID.native` is Python `None`. -/
def pyStrOfNative : Option String → String
  | some s => s
  | none => "None"

/-- The `str()` text of asn1crypto's `VOID` sentinel (an absent OPTIONAL
field object): `Asn1Value.__str__` falls back to its repr. The repr is
constant within a process; it is embedded as this abstract constant. -/
def noValueStr : String := "<NoValue>"

/-- Python `str(x)` where `x` is the field object itself (the AS-REP path,
line 296): a `KerberosString`'s `str()` is its decoded text, and an absent
field gives `str(VOID)` = `noValueStr`. -/
def pyStrOfField : Option String → String
  | some s => s
  | none => noValueStr

/-! ## The salt extractor `get_salt_from_rep` (salt.py lines 272-297) -/

/-- The KRB-ERROR-path loop (lines 278-284): for each `PA_DATA` of type
`PA_ETYPE_INFO2`, decode its value as `ETYPE_INFO2` (an exception if the
bytes are malformed) and return `str(entry['salt'].native)` for the first
entry with etype AES256; `none` means the loop fell through without
returning. -/
def scanErrorPadatas : List PA_DATA → Option (Except SaltError String)
  | [] => none
  | p :: rest =>
    if p.padataType = PA_ETYPE_INFO2 then
      match p.padataValue with
      | .malformed => some (.error .decodeError)
      | .einfo2 entries =>
        match entries.find? (fun e => e.etype == AES256_CTS_HMAC_SHA1h96_ENC_TYPE) with
        | some e => some (.ok (pyStrOfNative e.salt))
        | none => scanErrorPadatas rest
    else scanErrorPadatas rest

/-- The AS-REP-path loop (lines 289-296): identical shape, but an entry
matches when its etype is AES256 or AES128, and the returned value is
`str(entry['salt'])` (no `.native`). -/
def scanRepPadatas : List PA_DATA → Option (Except SaltError String)
  | [] => none
  | p :: rest =>
    if p.padataType = PA_ETYPE_INFO2 then
      match p.padataValue with
      | .malformed => some (.error .decodeError)
      | .einfo2 entries =>
        match entries.find? (fun e =>
            e.etype == AES256_CTS_HMAC_SHA1h96_ENC_TYPE
              || e.etype == AES128_CTS_HMAC_SHA1_96_ENC_TYPE) with
        | some e => some (.ok (pyStrOfField e.salt))
        | none => scanRepPadatas rest
    else scanRepPadatas rest

/-- Function `get_salt_from_rep(kdc_rep)` (lines 272-297): dispatch on the outer tag;
on tag 30 decode as KRB_ERROR and, when the error code is
KDC_ERR_PREAUTH_REQUIRED, scan `e-data`; on tag 11 decode as KRB_AS_REP and
scan `padata`; every path that does not return a salt reaches the terminal
raise carrying the observed tag, except asn1crypto exceptions
(`decodeError`), which propagate out of the function. -/
def get_salt_from_rep (rep : Reply) : Except SaltError String :=
  let tag := rep.tag
  if tag = KRB_ERROR_TAG_NUMBER then
    match rep.asError with
    | none => .error .decodeError
    | some err =>
      if err.errorCode = KDC_ERR_PREAUTH_REQUIRED then
        match err.edata with
        | none => .error .decodeError
        | some .malformed => .error .decodeError
        | some (.paSeq l) =>
          match scanErrorPadatas l with
          | some r => r
          | none => .error (.couldNotRetrieve tag)
      else .error (.couldNotRetrieve tag)
  else if tag = AS_REP_TAG_NUMBER then
    match rep.asRep with
    | none => .error .decodeError
    | some asRep =>
      match asRep.padata with
      | none => .error .decodeError
      | some l =>
        match scanRepPadatas l with
        | some r => r
        | none => .error (.couldNotRetrieve tag)
  else .error (.couldNotRetrieve tag)

/-! ## The builder `build_as_req` (salt.py lines 209-248) -/

structure PrincipalName where
  nameType : Int
  nameString : List String
deriving DecidableEq, Repr

/-- Record `KDC_REQ_BODY` with the fields of the ASN.1 schema; OPTIONAL fields are
`Option` (absent when `none`). The three trailing fields are never set by
this code and carry no payload relevant here. -/
structure KDC_REQ_BODY where
  kdcOptions : List String
  cname : Option PrincipalName
  realm : String
  sname : Option PrincipalName
  fromTime : Option String
  till : String
  rtime : Option String
  nonce : Nat
  etype : Option (List Int)
  addresses : Option Unit
  encAuthorizationData : Option Unit
  additionalTickets : Option Unit
deriving DecidableEq, Repr

structure KRB_AS_REQ where
  pvno : Int
  msgType : Int
  padata : Option (List PA_DATA)
  reqBody : KDC_REQ_BODY
deriving DecidableEq, Repr

/-- Python `random.randint(a, b)`: a draw uniform on `[a, b]`, both ends
included. The raw randomness consumed from the generator is the extra
argument `r`; the draw is its reduction into the interval. -/
def randint (a b : Nat) (r : Nat) : Nat := a + r % (b - a + 1)

/-- Function `build_as_req(username, domain)` (lines 209-248) up to the final
`.dump()`: the constructed AS-REQ value. The asn1crypto encode/decode pair
is the identity bijection on this typed value (spec section 4.1), so the
claims about "decoding the bytes produced" are stated on this value.
`rand` is the randomness consumed by `random.randint`. -/
def build_as_req (username domain : String) (rand : Nat) : KRB_AS_REQ :=
  { pvno := 5
    msgType := AS_MSG_TYPE
    padata := none
    reqBody :=
      { kdcOptions := []
        cname := some { nameType := NT_PRINCIPAL, nameString := [username] }
        realm := domain
        sname := some { nameType := NT_SRV_INST, nameString := ["krbtgt", domain] }
        fromTime := none
        till := TIME_T_ZERO
        rtime := none
        nonce := randint 0 INT32_MAX_VAL rand
        etype := some [AES128_CTS_HMAC_SHA1_96_ENC_TYPE, AES256_CTS_HMAC_SHA1h96_ENC_TYPE]
        addresses := none
        encAuthorizationData := none
        additionalTickets := none } }

/-- The same AS-REQ with its nonce replaced by a fixed value: two requests
are "identical in every field except the nonce" exactly when their images
under this map are equal. -/
def eraseNonce (m : KRB_AS_REQ) : KRB_AS_REQ :=
  { m with reqBody := { m.reqBody with nonce := 0 } }

/-! ## The heuristic `get_salt_from_heuristic` (salt.py lines 304-311) -/

/-- Python `s.rstrip(c)` for a single strip character: removes ALL trailing
occurrences of `c`. -/
def pyRstrip (c : Char) (s : String) : String :=
  String.mk ((s.data.reverse.dropWhile (fun x => x == c)).reverse)

/-- Python `s.upper()`, on the ASCII inputs this code handles. -/
def pyUpper (s : String) : String := String.mk (s.data.map Char.toUpper)

/-- Python `s.lower()`, on the ASCII inputs this code handles. -/
def pyLower (s : String) : String := String.mk (s.data.map Char.toLower)

/-- Function `get_salt_from_heuristic(sam_account_name, domain)` (lines 304-311). -/
def get_salt_from_heuristic (sam_account_name domain : String) : String :=
  pyUpper domain ++ "host" ++ pyRstrip '$' sam_account_name ++ "." ++ pyLower domain

/-! ## The TCP transport `send_as_req` (salt.py lines 258-269) -/

/-- Python `socket.recv(n)` on a stream whose pending data is `stream`: up to `n`
bytes are returned, here the first `min n (length stream)`, together with
the bytes left on the stream. -/
def recv (n : Nat) (stream : List Nat) : List Nat × List Nat :=
  (stream.take n, stream.drop n)

/-- Python `struct.pack('!i', n)`: `n` as 4 octets, big-endian, two's complement. -/
def pack_i (n : Int) : List Nat :=
  let m := (n % (2 ^ 32 : Int)).toNat
  [m / 2 ^ 24 % 256, m / 2 ^ 16 % 256, m / 2 ^ 8 % 256, m % 256]

/-- Python `struct.unpack('!i', b)[0]`: requires exactly 4 octets (otherwise it
raises, embedded as `none`), and reads them as a big-endian signed 32-bit
integer. -/
def unpack_i (b : List Nat) : Option Int :=
  match b with
  | [b0, b1, b2, b3] =>
    let u : Nat := ((b0 * 256 + b1) * 256 + b2) * 256 + b3
    some (if u < 2 ^ 31 then (u : Int) else (u : Int) - 2 ^ 32)
  | _ => none

/-- Exceptions of the TCP receive path: `struct.unpack` raises when
`s.recv(4)` returned fewer than 4 bytes, and `s.recv(n)` raises on a
negative `n`. -/
inductive TransportError where
  | shortLengthRead
  | negativeLength
deriving DecidableEq, Repr

/-- The TCP branch of `send_as_req` (lines 258-269), with the already-built
request bytes as input and the peer's pending stream bytes in place of the
socket: returns the bytes written to the socket (the 4-octet big-endian
length prefix followed by the request) and the reply read back (4 octets of
length prefix, then that many bytes of body). -/
def send_as_req_tcp (request stream : List Nat) :
    List Nat × Except TransportError (List Nat) :=
  let sent := pack_i (request.length : Int) ++ request
  let r1 := recv 4 stream
  match unpack_i r1.1 with
  | none => (sent, .error .shortLengthRead)
  | some len =>
    if len < 0 then (sent, .error .negativeLength)
    else (sent, .ok (recv len.toNat r1.2).1)

/-! ## Derived views of a PA_DATA list, used in the amended statements -/

/-- The decoded entries of a `padata-value` (empty for the malformed case,
which the lemmas exclude by hypothesis). -/
def einfo2Entries : PaValue → List ETYPE_INFO2_ENTRY
  | .einfo2 es => es
  | .malformed => []

/-- All ETYPE-INFO2 entries of a PA_DATA list, in list order: the
concatenation of the decoded values of the entries whose type is
`PA_ETYPE_INFO2`. -/
def etypeInfo2Values (l : List PA_DATA) : List ETYPE_INFO2_ENTRY :=
  (l.filter (fun p => p.padataType == PA_ETYPE_INFO2)).flatMap
    (fun p => einfo2Entries p.padataValue)

/-- The KRB-ERROR-path scan equals the first AES256 entry across ALL
ETYPE-INFO2 values (not only the first one), provided every scanned value
decodes. -/
theorem scanErrorPadatas_eq_find (l : List PA_DATA)
    (hdec : ∀ p ∈ l, p.padataType = PA_ETYPE_INFO2 → p.padataValue ≠ PaValue.malformed) :
    scanErrorPadatas l =
      ((etypeInfo2Values l).find?
          (fun e => e.etype == AES256_CTS_HMAC_SHA1h96_ENC_TYPE)).map
        (fun e => Except.ok (pyStrOfNative e.salt)) := by
  induction l with
  | nil => rfl
  | cons p rest ih =>
    have hrest : ∀ q ∈ rest, q.padataType = PA_ETYPE_INFO2 → q.padataValue ≠ PaValue.malformed :=
      fun q hq => hdec q (List.mem_cons_of_mem _ hq)
    by_cases hp : p.padataType = PA_ETYPE_INFO2
    · cases hval : p.padataValue with
      | malformed => exact absurd hval (hdec p (List.mem_cons_self p rest) hp)
      | einfo2 es =>
        cases hfind : es.find? (fun e => e.etype == AES256_CTS_HMAC_SHA1h96_ENC_TYPE) with
        | some e =>
          simp [scanErrorPadatas, hp, hval, hfind, etypeInfo2Values, List.filter_cons,
            einfo2Entries]
        | none =>
          simp [scanErrorPadatas, hp, hval, hfind, etypeInfo2Values, List.filter_cons,
            einfo2Entries, ih hrest]
    · simp [scanErrorPadatas, hp, etypeInfo2Values, List.filter_cons, ih hrest]

/-- The AS-REP-path scan equals the first AES256-or-AES128 entry across ALL
ETYPE-INFO2 values, provided every scanned value decodes. -/
theorem scanRepPadatas_eq_find (l : List PA_DATA)
    (hdec : ∀ p ∈ l, p.padataType = PA_ETYPE_INFO2 → p.padataValue ≠ PaValue.malformed) :
    scanRepPadatas l =
      ((etypeInfo2Values l).find?
          (fun e => e.etype == AES256_CTS_HMAC_SHA1h96_ENC_TYPE
            || e.etype == AES128_CTS_HMAC_SHA1_96_ENC_TYPE)).map
        (fun e => Except.ok (pyStrOfField e.salt)) := by
  induction l with
  | nil => rfl
  | cons p rest ih =>
    have hrest : ∀ q ∈ rest, q.padataType = PA_ETYPE_INFO2 → q.padataValue ≠ PaValue.malformed :=
      fun q hq => hdec q (List.mem_cons_of_mem _ hq)
    by_cases hp : p.padataType = PA_ETYPE_INFO2
    · cases hval : p.padataValue with
      | malformed => exact absurd hval (hdec p (List.mem_cons_self p rest) hp)
      | einfo2 es =>
        cases hfind : es.find? (fun e => e.etype == AES256_CTS_HMAC_SHA1h96_ENC_TYPE
            || e.etype == AES128_CTS_HMAC_SHA1_96_ENC_TYPE) with
        | some e =>
          simp [scanRepPadatas, hp, hval, hfind, etypeInfo2Values, List.filter_cons,
            einfo2Entries]
        | none =>
          simp [scanRepPadatas, hp, hval, hfind, etypeInfo2Values, List.filter_cons,
            einfo2Entries, ih hrest]
    · simp [scanRepPadatas, hp, etypeInfo2Values, List.filter_cons, ih hrest]

/-- The only error the KRB-ERROR-path scan can produce is `decodeError`. -/
theorem scanErrorPadatas_error (l : List PA_DATA) (e : SaltError)
    (h : scanErrorPadatas l = some (.error e)) : e = SaltError.decodeError := by
  induction l with
  | nil => simp [scanErrorPadatas] at h
  | cons p rest ih =>
    by_cases hp : p.padataType = PA_ETYPE_INFO2
    · cases hval : p.padataValue with
      | malformed =>
        simp [scanErrorPadatas, hp, hval] at h
        exact h.symm
      | einfo2 es =>
        cases hfind : es.find? (fun x => x.etype == AES256_CTS_HMAC_SHA1h96_ENC_TYPE) with
        | some x => simp [scanErrorPadatas, hp, hval, hfind] at h
        | none =>
          simp only [scanErrorPadatas, hp, if_pos, hval, hfind] at h
          exact ih h
    · simp only [scanErrorPadatas, hp, if_neg, ite_false] at h
      exact ih h

/-- The only error the AS-REP-path scan can produce is `decodeError`. -/
theorem scanRepPadatas_error (l : List PA_DATA) (e : SaltError)
    (h : scanRepPadatas l = some (.error e)) : e = SaltError.decodeError := by
  induction l with
  | nil => simp [scanRepPadatas] at h
  | cons p rest ih =>
    by_cases hp : p.padataType = PA_ETYPE_INFO2
    · cases hval : p.padataValue with
      | malformed =>
        simp [scanRepPadatas, hp, hval] at h
        exact h.symm
      | einfo2 es =>
        cases hfind : es.find? (fun x => x.etype == AES256_CTS_HMAC_SHA1h96_ENC_TYPE
            || x.etype == AES128_CTS_HMAC_SHA1_96_ENC_TYPE) with
        | some x => simp [scanRepPadatas, hp, hval, hfind] at h
        | none =>
          simp only [scanRepPadatas, hp, if_pos, hval, hfind] at h
          exact ih h
    · simp only [scanRepPadatas, hp, if_neg, ite_false] at h
      exact ih h

/-! ## Relational presentation of the extractor, for the determinism claim -/

/-- The KRB-ERROR-path loop as a relation between the PA_DATA list and the
loop's outcome (`none` = fell through). -/
inductive ScanErrRel : List PA_DATA → Option (Except SaltError String) → Prop where
  | nil : ScanErrRel [] none
  | skip {p : PA_DATA} {rest : List PA_DATA} {out : Option (Except SaltError String)} :
      p.padataType ≠ PA_ETYPE_INFO2 → ScanErrRel rest out → ScanErrRel (p :: rest) out
  | badValue {p : PA_DATA} {rest : List PA_DATA} :
      p.padataType = PA_ETYPE_INFO2 → p.padataValue = PaValue.malformed →
      ScanErrRel (p :: rest) (some (.error .decodeError))
  | found {p : PA_DATA} {rest : List PA_DATA} {es : List ETYPE_INFO2_ENTRY}
      {e : ETYPE_INFO2_ENTRY} :
      p.padataType = PA_ETYPE_INFO2 → p.padataValue = PaValue.einfo2 es →
      es.find? (fun x => x.etype == AES256_CTS_HMAC_SHA1h96_ENC_TYPE) = some e →
      ScanErrRel (p :: rest) (some (.ok (pyStrOfNative e.salt)))
  | notFound {p : PA_DATA} {rest : List PA_DATA} {es : List ETYPE_INFO2_ENTRY}
      {out : Option (Except SaltError String)} :
      p.padataType = PA_ETYPE_INFO2 → p.padataValue = PaValue.einfo2 es →
      es.find? (fun x => x.etype == AES256_CTS_HMAC_SHA1h96_ENC_TYPE) = none →
      ScanErrRel rest out → ScanErrRel (p :: rest) out

/-- The AS-REP-path loop as a relation. -/
inductive ScanRepRel : List PA_DATA → Option (Except SaltError String) → Prop where
  | nil : ScanRepRel [] none
  | skip {p : PA_DATA} {rest : List PA_DATA} {out : Option (Except SaltError String)} :
      p.padataType ≠ PA_ETYPE_INFO2 → ScanRepRel rest out → ScanRepRel (p :: rest) out
  | badValue {p : PA_DATA} {rest : List PA_DATA} :
      p.padataType = PA_ETYPE_INFO2 → p.padataValue = PaValue.malformed →
      ScanRepRel (p :: rest) (some (.error .decodeError))
  | found {p : PA_DATA} {rest : List PA_DATA} {es : List ETYPE_INFO2_ENTRY}
      {e : ETYPE_INFO2_ENTRY} :
      p.padataType = PA_ETYPE_INFO2 → p.padataValue = PaValue.einfo2 es →
      es.find? (fun x => x.etype == AES256_CTS_HMAC_SHA1h96_ENC_TYPE
        || x.etype == AES128_CTS_HMAC_SHA1_96_ENC_TYPE) = some e →
      ScanRepRel (p :: rest) (some (.ok (pyStrOfField e.salt)))
  | notFound {p : PA_DATA} {rest : List PA_DATA} {es : List ETYPE_INFO2_ENTRY}
      {out : Option (Except SaltError String)} :
      p.padataType = PA_ETYPE_INFO2 → p.padataValue = PaValue.einfo2 es →
      es.find? (fun x => x.etype == AES256_CTS_HMAC_SHA1h96_ENC_TYPE
        || x.etype == AES128_CTS_HMAC_SHA1_96_ENC_TYPE) = none →
      ScanRepRel rest out → ScanRepRel (p :: rest) out

/-- Big-step evaluation relation of `get_salt_from_rep`, one constructor per
control path of the Python function. -/
inductive SaltRel : Reply → Except SaltError String → Prop where
  | errLoadFail {rep : Reply} :
      rep.tag = KRB_ERROR_TAG_NUMBER → rep.asError = none →
      SaltRel rep (.error .decodeError)
  | errBadCode {rep : Reply} {err : KRB_ERROR} :
      rep.tag = KRB_ERROR_TAG_NUMBER → rep.asError = some err →
      err.errorCode ≠ KDC_ERR_PREAUTH_REQUIRED →
      SaltRel rep (.error (.couldNotRetrieve rep.tag))
  | errNoEdata {rep : Reply} {err : KRB_ERROR} :
      rep.tag = KRB_ERROR_TAG_NUMBER → rep.asError = some err →
      err.errorCode = KDC_ERR_PREAUTH_REQUIRED → err.edata = none →
      SaltRel rep (.error .decodeError)
  | errEdataMalformed {rep : Reply} {err : KRB_ERROR} :
      rep.tag = KRB_ERROR_TAG_NUMBER → rep.asError = some err →
      err.errorCode = KDC_ERR_PREAUTH_REQUIRED → err.edata = some EData.malformed →
      SaltRel rep (.error .decodeError)
  | errScanHit {rep : Reply} {err : KRB_ERROR} {l : List PA_DATA}
      {r : Except SaltError String} :
      rep.tag = KRB_ERROR_TAG_NUMBER → rep.asError = some err →
      err.errorCode = KDC_ERR_PREAUTH_REQUIRED → err.edata = some (EData.paSeq l) →
      ScanErrRel l (some r) → SaltRel rep r
  | errScanMiss {rep : Reply} {err : KRB_ERROR} {l : List PA_DATA} :
      rep.tag = KRB_ERROR_TAG_NUMBER → rep.asError = some err →
      err.errorCode = KDC_ERR_PREAUTH_REQUIRED → err.edata = some (EData.paSeq l) →
      ScanErrRel l none → SaltRel rep (.error (.couldNotRetrieve rep.tag))
  | repLoadFail {rep : Reply} :
      rep.tag = AS_REP_TAG_NUMBER → rep.asRep = none →
      SaltRel rep (.error .decodeError)
  | repNoPadata {rep : Reply} {asrep : KRB_AS_REP} :
      rep.tag = AS_REP_TAG_NUMBER → rep.asRep = some asrep → asrep.padata = none →
      SaltRel rep (.error .decodeError)
  | repScanHit {rep : Reply} {asrep : KRB_AS_REP} {l : List PA_DATA}
      {r : Except SaltError String} :
      rep.tag = AS_REP_TAG_NUMBER → rep.asRep = some asrep → asrep.padata = some l →
      ScanRepRel l (some r) → SaltRel rep r
  | repScanMiss {rep : Reply} {asrep : KRB_AS_REP} {l : List PA_DATA} :
      rep.tag = AS_REP_TAG_NUMBER → rep.asRep = some asrep → asrep.padata = some l →
      ScanRepRel l none → SaltRel rep (.error (.couldNotRetrieve rep.tag))
  | otherTag {rep : Reply} :
      rep.tag ≠ KRB_ERROR_TAG_NUMBER → rep.tag ≠ AS_REP_TAG_NUMBER →
      SaltRel rep (.error (.couldNotRetrieve rep.tag))

/-- The error-path scan relation agrees with the scan function. -/
theorem scanErrRel_sound {l : List PA_DATA} {out : Option (Except SaltError String)}
    (h : ScanErrRel l out) : scanErrorPadatas l = out := by
  induction h with
  | nil => rfl
  | skip hp _ ih => simp [scanErrorPadatas, hp, ih]
  | badValue hp hv => simp [scanErrorPadatas, hp, hv]
  | found hp hv hfind => simp [scanErrorPadatas, hp, hv, hfind]
  | notFound hp hv hfind _ ih => simp [scanErrorPadatas, hp, hv, hfind, ih]

/-- The AS-REP-path scan relation agrees with the scan function. -/
theorem scanRepRel_sound {l : List PA_DATA} {out : Option (Except SaltError String)}
    (h : ScanRepRel l out) : scanRepPadatas l = out := by
  induction h with
  | nil => rfl
  | skip hp _ ih => simp [scanRepPadatas, hp, ih]
  | badValue hp hv => simp [scanRepPadatas, hp, hv]
  | found hp hv hfind => simp [scanRepPadatas, hp, hv, hfind]
  | notFound hp hv hfind _ ih => simp [scanRepPadatas, hp, hv, hfind, ih]

/-- Every evaluation derivable by `SaltRel` is the value of the function
`get_salt_from_rep`. -/
theorem saltRel_sound {rep : Reply} {out : Except SaltError String}
    (h : SaltRel rep out) : get_salt_from_rep rep = out := by
  cases h with
  | errLoadFail htag herr => simp [get_salt_from_rep, htag, herr]
  | errBadCode htag herr hcode => simp [get_salt_from_rep, htag, herr, hcode]
  | errNoEdata htag herr hcode hed => simp [get_salt_from_rep, htag, herr, hcode, hed]
  | errEdataMalformed htag herr hcode hed =>
    simp [get_salt_from_rep, htag, herr, hcode, hed]
  | errScanHit htag herr hcode hed hscan =>
    simp [get_salt_from_rep, htag, herr, hcode, hed, scanErrRel_sound hscan]
  | errScanMiss htag herr hcode hed hscan =>
    simp [get_salt_from_rep, htag, herr, hcode, hed, scanErrRel_sound hscan]
  | repLoadFail htag hrep =>
    simp [get_salt_from_rep, htag, hrep, AS_REP_TAG_NUMBER, KRB_ERROR_TAG_NUMBER]
  | repNoPadata htag hrep hpad =>
    simp [get_salt_from_rep, htag, hrep, hpad, AS_REP_TAG_NUMBER, KRB_ERROR_TAG_NUMBER]
  | repScanHit htag hrep hpad hscan =>
    simp [get_salt_from_rep, htag, hrep, hpad, scanRepRel_sound hscan,
      AS_REP_TAG_NUMBER, KRB_ERROR_TAG_NUMBER]
  | repScanMiss htag hrep hpad hscan =>
    simp [get_salt_from_rep, htag, hrep, hpad, scanRepRel_sound hscan,
      AS_REP_TAG_NUMBER, KRB_ERROR_TAG_NUMBER]
  | otherTag h30 h11 => simp [get_salt_from_rep, h30, h11]

/-! ## Structural properties of the heuristic's string operations -/

/-- Lemma: `pyRstrip c` removes a maximal run of trailing `c`: the input is the
output followed by some number of `c`s, and the output does not end
in `c`. -/
theorem pyRstrip_spec (c : Char) (s : String) :
    (∃ k, s.data = (pyRstrip c s).data ++ List.replicate k c) ∧
      (pyRstrip c s).data.getLast? ≠ some c := by
  constructor
  · refine ⟨(s.data.reverse.takeWhile (fun x => x == c)).length, ?_⟩
    have h1 : s.data.reverse.takeWhile (fun x => x == c) ++
        s.data.reverse.dropWhile (fun x => x == c) = s.data.reverse :=
      List.takeWhile_append_dropWhile (fun x => x == c) s.data.reverse
    have h2 : (s.data.reverse.takeWhile (fun x => x == c)).reverse =
        List.replicate (s.data.reverse.takeWhile (fun x => x == c)).length c := by
      have hall : ∀ b ∈ (s.data.reverse.takeWhile (fun x => x == c)).reverse, b = c := by
        intro b hb
        have hb2 : b ∈ s.data.reverse.takeWhile (fun x => x == c) := by
          simpa using hb
        simpa [beq_iff_eq] using List.mem_takeWhile_imp hb2
      have := List.eq_replicate_of_mem hall
      simpa using this
    calc s.data = s.data.reverse.reverse := (List.reverse_reverse s.data).symm
      _ = (s.data.reverse.takeWhile (fun x => x == c) ++
            s.data.reverse.dropWhile (fun x => x == c)).reverse := by rw [h1]
      _ = (s.data.reverse.dropWhile (fun x => x == c)).reverse ++
            (s.data.reverse.takeWhile (fun x => x == c)).reverse := by
            rw [List.reverse_append]
      _ = (pyRstrip c s).data ++ List.replicate
            (s.data.reverse.takeWhile (fun x => x == c)).length c := by rw [h2]; rfl
  · have hhead := List.head?_dropWhile_not (fun x => x == c) s.data.reverse
    show ((s.data.reverse.dropWhile (fun x => x == c)).reverse).getLast? ≠ some c
    rw [List.getLast?_reverse]
    cases hh : (s.data.reverse.dropWhile (fun x => x == c)).head? with
    | none => simp
    | some x =>
      rw [hh] at hhead
      simp only [] at hhead
      intro hxc
      injection hxc with hxc2
      rw [hxc2] at hhead
      simp at hhead

/-! ## Arithmetic of the TCP length framing -/

/-- Unpacking a packed length recovers it, for lengths representable in a
signed 32-bit field. -/
theorem unpack_pack (n : Nat) (h : n < 2 ^ 31) :
    unpack_i (pack_i (n : Int)) = some (n : Int) := by
  have hm : ((n : Int) % (2 ^ 32 : Int)).toNat = n := by omega
  simp only [pack_i, unpack_i, hm]
  split
  next hlt => congr 1; omega
  next hge => exfalso; omega

/-! ## Claim theorems -/

/-- Claim C6: for every principal and realm, the built AS-REQ has
protocol-version 5, message-type 10, an empty kdc-options set,
cname.name-string = [p], sname.name-string = ["krbtgt", r], realm = r,
till the epoch sentinel 1970-01-01T00:00:00Z, etype exactly
[AES128, AES256] in that order, no padata, and on every invocation a nonce
with 0 ≤ nonce ≤ 0x7FFFFFFF (0 ≤ nonce holds as the nonce is a natural
number). -/
theorem c6_build_as_req_fields (p r : String) (rand : Nat) :
    (build_as_req p r rand).pvno = 5 ∧
    (build_as_req p r rand).msgType = AS_MSG_TYPE ∧
    (build_as_req p r rand).reqBody.kdcOptions = [] ∧
    (build_as_req p r rand).reqBody.cname =
      some { nameType := NT_PRINCIPAL, nameString := [p] } ∧
    (build_as_req p r rand).reqBody.sname =
      some { nameType := NT_SRV_INST, nameString := ["krbtgt", r] } ∧
    (build_as_req p r rand).reqBody.realm = r ∧
    (build_as_req p r rand).reqBody.till = TIME_T_ZERO ∧
    (build_as_req p r rand).reqBody.etype =
      some [AES128_CTS_HMAC_SHA1_96_ENC_TYPE, AES256_CTS_HMAC_SHA1h96_ENC_TYPE] ∧
    (build_as_req p r rand).padata = none ∧
    (build_as_req p r rand).reqBody.nonce ≤ INT32_MAX_VAL := by
  refine ⟨rfl, rfl, rfl, rfl, rfl, rfl, rfl, rfl, rfl, ?_⟩
  show randint 0 INT32_MAX_VAL rand ≤ INT32_MAX_VAL
  unfold randint INT32_MAX_VAL
  omega

/-- Claim C9: two invocations of the builder with the same principal and
realm produce AS-REQ values identical in every field except the nonce; the
randomness consumed influences the nonce field only. -/
theorem c9_randomness_only_nonce (p r : String) (rand1 rand2 : Nat) :
    eraseNonce (build_as_req p r rand1) = eraseNonce (build_as_req p r rand2) := rfl

/-- Claim C3: a decodable KRB-ERROR reply with any error-code other than
pre-authentication required makes the extractor fail — the terminal
failure carrying the observed tag, which is the collapsed ProtocolError of
spec section 7 — and return no salt. -/
theorem c3_unexpected_error_code_fails (rep : Reply) (err : KRB_ERROR)
    (htag : rep.tag = KRB_ERROR_TAG_NUMBER)
    (hload : rep.asError = some err)
    (hcode : err.errorCode ≠ KDC_ERR_PREAUTH_REQUIRED) :
    get_salt_from_rep rep = .error (.couldNotRetrieve KRB_ERROR_TAG_NUMBER) := by
  simp [get_salt_from_rep, htag, hload, hcode]

theorem c3_unexpected_error_code_fails_witness :
    get_salt_from_rep
        { tag := 30, asError := some { errorCode := 6, edata := none }, asRep := none }
      = .error (.couldNotRetrieve KRB_ERROR_TAG_NUMBER) :=
  c3_unexpected_error_code_fails _ _ rfl rfl (by decide)

/-- The e-data PA_DATA list of the C1 scenario: a first ETYPE-INFO2 entry
whose value holds only an AES128 element, then a second ETYPE-INFO2 entry
whose value holds an AES256 element with salt "Y". -/
def c1_edata_list : List PA_DATA :=
  [ { padataType := PA_ETYPE_INFO2
      padataValue := PaValue.einfo2 [{ etype := 17, salt := some "X", s2kparams := none }] }
  , { padataType := PA_ETYPE_INFO2
      padataValue := PaValue.einfo2 [{ etype := 18, salt := some "Y", s2kparams := none }] } ]

def c1_err : KRB_ERROR :=
  { errorCode := KDC_ERR_PREAUTH_REQUIRED, edata := some (EData.paSeq c1_edata_list) }

def c1_input : Reply :=
  { tag := KRB_ERROR_TAG_NUMBER, asError := some c1_err, asRep := none }

/-- Claim C1 counterexample: at this KRB-ERROR reply the first ETYPE-INFO2
PaData entry contains no AES256 element, so the claim mandates a failure;
the code instead goes on to the second ETYPE-INFO2 entry and returns its
salt "Y". -/
theorem c1_first_entry_only_counterexample :
    get_salt_from_rep c1_input = .ok "Y" := rfl

/-- Claim C1 (amended): on a KRB-ERROR reply with error-code
pre-authentication required and decodable e-data, the extractor scans ALL
PaData entries of type ETYPE-INFO2 in list order and returns the
(stringified) salt of the first AES256 element found in any of them; it
fails with the terminal error, which carries the observed tag, only when no
ETYPE-INFO2 entry contains an AES256 element. -/
theorem c1_error_path_scans_all_etype_info2 (rep : Reply) (err : KRB_ERROR)
    (l : List PA_DATA)
    (htag : rep.tag = KRB_ERROR_TAG_NUMBER)
    (hload : rep.asError = some err)
    (hcode : err.errorCode = KDC_ERR_PREAUTH_REQUIRED)
    (hedata : err.edata = some (EData.paSeq l))
    (hdec : ∀ p ∈ l, p.padataType = PA_ETYPE_INFO2 → p.padataValue ≠ PaValue.malformed) :
    get_salt_from_rep rep =
      match (etypeInfo2Values l).find?
          (fun e => e.etype == AES256_CTS_HMAC_SHA1h96_ENC_TYPE) with
      | some e => .ok (pyStrOfNative e.salt)
      | none => .error (.couldNotRetrieve KRB_ERROR_TAG_NUMBER) := by
  have hscan := scanErrorPadatas_eq_find l hdec
  simp only [get_salt_from_rep, htag, hload, hcode, hedata, hscan, if_pos]
  cases (etypeInfo2Values l).find?
      (fun e => e.etype == AES256_CTS_HMAC_SHA1h96_ENC_TYPE) with
  | some e => simp
  | none => simp

theorem c1_error_path_scans_all_etype_info2_witness :
    get_salt_from_rep c1_input = .ok "Y" := by
  rw [c1_error_path_scans_all_etype_info2 c1_input c1_err c1_edata_list
    rfl rfl rfl rfl (by decide)]
  rfl

def c2_input : Reply :=
  { tag := KRB_ERROR_TAG_NUMBER
    asError := some
      { errorCode := KDC_ERR_PREAUTH_REQUIRED
        edata := some (EData.paSeq
          [{ padataType := PA_ETYPE_INFO2
             padataValue := PaValue.einfo2
               [{ etype := 18, salt := none, s2kparams := none }] }]) }
    asRep := none }

/-- Claim C2 (code bug): when the matched AES256 entry carries no salt
field, the code executes `str(pa_etype_info2_value['salt'].native)` =
`str(None)` and returns the literal text "None" instead of failing. -/
theorem c2_absent_salt_returns_none_string :
    get_salt_from_rep c2_input = .ok "None" := rfl

def c4_cex_input : Reply :=
  { tag := AS_REP_TAG_NUMBER
    asError := none
    asRep := some
      { padata := some
          [{ padataType := PA_ETYPE_INFO2
             padataValue := PaValue.einfo2
               [{ etype := 17, salt := none, s2kparams := none }] }] } }

/-- Claim C4 counterexample: an AS-REP whose matching AES128 entry has no
salt field; the claim mandates a failure, but the code returns
`str(VOID)`, the repr text of the missing-value sentinel. -/
theorem c4_absent_salt_counterexample :
    get_salt_from_rep c4_cex_input = .ok noValueStr := rfl

/-- Claim C4 (amended): on an AS-REP reply with a decodable padata list,
the extractor returns `str` of the salt field of the first element whose
etype is AES256 or AES128 across all ETYPE-INFO2 entries in list order —
which is the repr text of the missing-value sentinel, not a failure, when
that element's salt is absent — and fails with the terminal error only
when no such element exists. -/
theorem c4_as_rep_first_match_salt (rep : Reply) (asrep : KRB_AS_REP) (l : List PA_DATA)
    (htag : rep.tag = AS_REP_TAG_NUMBER)
    (hload : rep.asRep = some asrep)
    (hpadata : asrep.padata = some l)
    (hdec : ∀ p ∈ l, p.padataType = PA_ETYPE_INFO2 → p.padataValue ≠ PaValue.malformed) :
    get_salt_from_rep rep =
      match (etypeInfo2Values l).find?
          (fun e => e.etype == AES256_CTS_HMAC_SHA1h96_ENC_TYPE
            || e.etype == AES128_CTS_HMAC_SHA1_96_ENC_TYPE) with
      | some e => .ok (pyStrOfField e.salt)
      | none => .error (.couldNotRetrieve AS_REP_TAG_NUMBER) := by
  have hscan := scanRepPadatas_eq_find l hdec
  simp only [get_salt_from_rep, htag, hload, hpadata, hscan,
    AS_REP_TAG_NUMBER, KRB_ERROR_TAG_NUMBER]
  norm_num
  cases (etypeInfo2Values l).find?
      (fun e => e.etype == AES256_CTS_HMAC_SHA1h96_ENC_TYPE
        || e.etype == AES128_CTS_HMAC_SHA1_96_ENC_TYPE) with
  | some e => simp
  | none => simp [AS_REP_TAG_NUMBER]

/-- The AS-REP scenario of the spec's example: one ETYPE-INFO2 entry whose
value is the list [AES128 with salt "A", AES256 with salt "B"]. -/
def c4_ab_input : Reply :=
  { tag := AS_REP_TAG_NUMBER
    asError := none
    asRep := some
      { padata := some
          [{ padataType := PA_ETYPE_INFO2
             padataValue := PaValue.einfo2
               [{ etype := 17, salt := some "A", s2kparams := none },
                { etype := 18, salt := some "B", s2kparams := none }] }] } }

theorem c4_as_rep_first_match_salt_witness :
    get_salt_from_rep c4_ab_input = .ok "A" := by
  rw [c4_as_rep_first_match_salt c4_ab_input _ _ rfl rfl rfl (by decide)]
  rfl

/-- Claim C5: a reply whose outer tag is neither AS-REP (11) nor KRB-ERROR
(30) makes the extractor fail with the terminal failure carrying the
observed tag; and every failure of the extractor is a single terminal
failure reporting either a decode error or the observed outer tag. -/
theorem c5_terminal_failure_reports_tag_or_decode (rep : Reply) :
    (rep.tag ≠ AS_REP_TAG_NUMBER → rep.tag ≠ KRB_ERROR_TAG_NUMBER →
      get_salt_from_rep rep = .error (.couldNotRetrieve rep.tag)) ∧
    (∀ e, get_salt_from_rep rep = .error e →
      e = SaltError.decodeError ∨ e = SaltError.couldNotRetrieve rep.tag) := by
  constructor
  · intro h11 h30
    simp [get_salt_from_rep, h11, h30]
  · intro e he
    simp only [get_salt_from_rep] at he
    by_cases h30 : rep.tag = KRB_ERROR_TAG_NUMBER
    · rw [if_pos h30] at he
      cases herr : rep.asError with
      | none =>
        rw [herr] at he
        simp at he
        exact Or.inl he.symm
      | some err =>
        rw [herr] at he
        simp only [] at he
        by_cases hcode : err.errorCode = KDC_ERR_PREAUTH_REQUIRED
        · rw [if_pos hcode] at he
          cases hed : err.edata with
          | none =>
            rw [hed] at he
            simp at he
            exact Or.inl he.symm
          | some ed =>
            rw [hed] at he
            cases ed with
            | malformed =>
              simp at he
              exact Or.inl he.symm
            | paSeq l =>
              simp only [] at he
              cases hscan : scanErrorPadatas l with
              | some r =>
                rw [hscan] at he
                simp only [] at he
                rw [he] at hscan
                exact Or.inl (scanErrorPadatas_error l e hscan)
              | none =>
                rw [hscan] at he
                simp at he
                exact Or.inr he.symm
        · rw [if_neg hcode] at he
          simp at he
          exact Or.inr he.symm
    · rw [if_neg h30] at he
      by_cases h11 : rep.tag = AS_REP_TAG_NUMBER
      · rw [if_pos h11] at he
        cases hrep : rep.asRep with
        | none =>
          rw [hrep] at he
          simp at he
          exact Or.inl he.symm
        | some ar =>
          rw [hrep] at he
          simp only [] at he
          cases hpad : ar.padata with
          | none =>
            rw [hpad] at he
            simp at he
            exact Or.inl he.symm
          | some l =>
            rw [hpad] at he
            simp only [] at he
            cases hscan : scanRepPadatas l with
            | some r =>
              rw [hscan] at he
              simp only [] at he
              rw [he] at hscan
              exact Or.inl (scanRepPadatas_error l e hscan)
            | none =>
              rw [hscan] at he
              simp at he
              exact Or.inr he.symm
      · rw [if_neg h11] at he
        simp at he
        exact Or.inr he.symm

theorem c5_terminal_failure_reports_tag_or_decode_witness :
    get_salt_from_rep { tag := 9, asError := none, asRep := none }
      = .error (.couldNotRetrieve 9) :=
  (c5_terminal_failure_reports_tag_or_decode
    { tag := 9, asError := none, asRep := none }).1 (by decide) (by decide)

/-- Claim C7 counterexample: with an account name ending in two '$'
characters the heuristic strips BOTH (Python rstrip semantics), not just
the last one, so the result differs from the value the claim predicts
(which would keep "SVC$"). -/
theorem c7_multiple_dollars_counterexample :
    get_salt_from_heuristic "SVC$$" "example.com" = "EXAMPLE.COMhostSVC.example.com" ∧
      get_salt_from_heuristic "SVC$$" "example.com" ≠ "EXAMPLE.COMhostSVC$.example.com" := by
  constructor
  · rfl
  · decide

/-- Claim C7 (amended): the heuristic is total and returns
uppercase(realm) ++ "host" ++ stripped ++ "." ++ lowercase(realm), where
stripped is the account name with ALL trailing '$' characters removed: the
account name is stripped followed by a run of '$', and stripped does not
itself end in '$'. The claim's example with a single trailing '$' holds. -/
theorem c7_heuristic_strips_all_trailing_dollars (a r : String) :
    (∃ k, a.data = (pyRstrip '$' a).data ++ List.replicate k '$') ∧
      (pyRstrip '$' a).data.getLast? ≠ some '$' ∧
      get_salt_from_heuristic a r =
        pyUpper r ++ "host" ++ pyRstrip '$' a ++ "." ++ pyLower r ∧
      get_salt_from_heuristic "SVC$" "example.com" = "EXAMPLE.COMhostSVC.example.com" :=
  ⟨(pyRstrip_spec '$' a).1, (pyRstrip_spec '$' a).2, rfl, rfl⟩

/-- Claim C8: in TCP mode the code sends a 4-octet big-endian length prefix
followed by the request bytes, then reads a 4-octet length prefix and that
many bytes as the reply body; against a peer whose stream holds a
length-prefixed reply the returned value is exactly the reply body without
the prefix, for every body representable in the signed 32-bit length
field. -/
theorem c8_tcp_roundtrip_returns_body (request body : List Nat)
    (h : body.length < 2 ^ 31) :
    send_as_req_tcp request (pack_i (body.length : Int) ++ body) =
      (pack_i (request.length : Int) ++ request, .ok body) := by
  have h4 : recv 4 (pack_i (body.length : Int) ++ body) =
      (pack_i (body.length : Int), body) := rfl
  have hun := unpack_pack body.length h
  have htn : ((body.length : Int)).toNat = body.length := by omega
  simp only [send_as_req_tcp, h4, hun, htn]
  rw [if_neg (by omega : ¬ ((body.length : Int) < 0))]
  simp [recv]

theorem c8_tcp_roundtrip_returns_body_witness :
    send_as_req_tcp [9, 9] (pack_i (3 : Int) ++ [1, 2, 3]) =
      (pack_i (2 : Int) ++ [9, 9], .ok [1, 2, 3]) :=
  c8_tcp_roundtrip_returns_body [9, 9] [1, 2, 3] (by decide)

/-- Claim C10: the extractor is a deterministic function of the reply: any
two outcomes derivable by the evaluation relation for the same reply
coincide (the embedding is a pure function, with no dependence on external
state). -/
theorem c10_get_salt_deterministic (rep : Reply) (out1 out2 : Except SaltError String)
    (h1 : SaltRel rep out1) (h2 : SaltRel rep out2) : out1 = out2 :=
  (saltRel_sound h1).symm.trans (saltRel_sound h2)

theorem c10_get_salt_deterministic_witness :
    (Except.error (SaltError.couldNotRetrieve 7) : Except SaltError String)
      = Except.error (SaltError.couldNotRetrieve 7) :=
  c10_get_salt_deterministic { tag := 7, asError := none, asRep := none } _ _
    (SaltRel.otherTag (by decide) (by decide))
    (SaltRel.otherTag (by decide) (by decide))
